import Mathlib

/-!
Verification of the FactorishWasm simulation core against its
natural-language specification.

The definitions below are a shallow embedding of the Rust sources:
  * `src/fluid_box.rs`  — fluid containers and the per-link flow step
  * `src/structure.rs`  — the generational structure arena and its
                          split-borrow iteration views
  * `src/lib.rs`        — harvest/placement, power-wire formation,
                          save/load remapping

Rust `f64` amounts are modelled as `ℚ` (exact rational arithmetic; the
spec states its numeric properties "to floating-point tolerance", and all
constants involved, `0.1` included, are rational).  `Entity` ids and
arena indices are modelled as `Nat`; `i32`/`u32` coordinates as `Int`/`Nat`
with the conversions made explicit where the source casts.
-/

namespace Factorish

/-! ## Fluid boxes (`src/fluid_box.rs`) -/

/-- `enum FluidType { Water, Steam }`. -/
inductive FluidType where
  | Water
  | Steam
deriving DecidableEq, Repr

/-- specs `Entity` ids, modelled as bare naturals. -/
abbrev Entity := Nat

/-- `struct FluidBox` from `fluid_box.rs` (the `connect_to` array holds
entity ids; `serde(skip)` is irrelevant to the embedding). -/
structure FluidBox where
  type_ : Option FluidType
  amount : ℚ
  max_amount : ℚ
  input_enable : Bool
  output_enable : Bool
  connect_to : List (Option Entity)
  filter : Option FluidType
deriving DecidableEq, Repr

/-- `FluidBox::new(input_enable, output_enable)`. -/
def FluidBox.new (input_enable output_enable : Bool) : FluidBox :=
  { type_ := none
    amount := 0
    max_amount := 100
    input_enable := input_enable
    output_enable := output_enable
    connect_to := [none, none, none, none]
    filter := none }

/-- The type-mixing guard at the head of `process_fluid_box`
(`fluid_box.rs` lines 137–140): the link is skipped when the neighbor
(`fluid_box`) holds a non-zero amount of a kind different from the self
container's kind and the *neighbor's* kind is set. -/
def mixingBlocked (self_box fluid_box : FluidBox) : Prop :=
  0 < fluid_box.amount ∧ fluid_box.type_ ≠ self_box.type_ ∧ fluid_box.type_.isSome

instance (self_box fluid_box : FluidBox) :
    Decidable (mixingBlocked self_box fluid_box) := by
  unfold mixingBlocked; infer_instance

/-- The input/output valve check of `process_fluid_box` (`fluid_box.rs`
lines 146–154), including the filter requirement on the receiving side. -/
def valveBlocked (self_box fluid_box : FluidBox) (flow : ℚ) : Bool :=
  if flow < 0 then
    !self_box.output_enable || !fluid_box.input_enable ||
      (fluid_box.filter.isSome && fluid_box.filter ≠ self_box.type_)
  else
    !self_box.input_enable || !fluid_box.output_enable ||
      (self_box.filter.isSome && self_box.filter ≠ fluid_box.type_)

/-- The `process_fluid_box` closure inside `FluidBox::simulate`
(`fluid_box.rs` lines 135–168): one per-link transfer between the `self`
container (`self_box`) and one neighbor container (`fluid_box`).  Returns
the updated `(self_box, fluid_box)` pair.  The `biggest_flow` bookkeeping
is cosmetic (debug arrow) and carries no state into the boxes, so it is
not part of the returned value. -/
def process_fluid_box (self_box fluid_box : FluidBox) : FluidBox × FluidBox :=
  -- Different types of fluids won't mix
  if mixingBlocked self_box fluid_box then
    (self_box, fluid_box)
  else
    let pressure := fluid_box.amount - self_box.amount
    let flow := pressure * (1/10)
    -- Check input/output valve state
    if valveBlocked self_box fluid_box flow then
      (self_box, fluid_box)
    else
      let fluid_box' := { fluid_box with amount := fluid_box.amount - flow }
      let self_box' := { self_box with amount := self_box.amount + flow }
      if flow < 0 then
        (self_box', { fluid_box' with type_ := self_box.type_ })
      else
        ({ self_box' with type_ := fluid_box.type_ }, fluid_box')

/-- The early-exit guard of `FluidBox::simulate` (`fluid_box.rs` line 97):
a box with zero amount, or with neither valve enabled, does nothing this
tick. -/
def FluidBox.simulateActive (b : FluidBox) : Bool :=
  !(b.amount == 0 || (!b.input_enable && !b.output_enable))

/-- One engine tick over a world of exactly two mutually linked
containers `A` and `B`: `A.simulate` runs its per-link step against `B`
(guarded by `simulateActive`), then `B.simulate` runs against the updated
`A`. -/
def tickPair (p : FluidBox × FluidBox) : FluidBox × FluidBox :=
  let p1 := if p.1.simulateActive then process_fluid_box p.1 p.2 else p
  let q := if p1.2.simulateActive then process_fluid_box p1.2 p1.1 else (p1.2, p1.1)
  (q.2, q.1)

/-! ## Structure arena (`src/structure.rs`) -/

/-- `struct StructureId { id: u32, gen: u32 }`. -/
structure StructureId where
  id : Nat
  gen : Nat
deriving DecidableEq, Repr

/-- `struct StructureEntry { gen: u32, bundle: Option<StructureBundle> }`
(`lib.rs` calls the payload field `dynamic`; the two names refer to the
same slot payload).  The bundle type is a parameter `α`: none of the
arena operations inspect it. -/
structure StructureEntry (α : Type) where
  gen : Nat
  bundle : Option α
deriving DecidableEq, Repr

/-- `struct StructureDynIter`: the split-borrow view over the slot array,
two slices with their start offsets. -/
structure StructureDynIter (α : Type) where
  left_start : Nat
  left : List (StructureEntry α)
  right_start : Nat
  right : List (StructureEntry α)
deriving Repr

/-- `StructureDynIter::new_all`. -/
def StructureDynIter.new_all {α} (source : List (StructureEntry α)) :
    StructureDynIter α :=
  { left_start := 0
    left := source
    right_start := source.length
    right := [] }

/-- `StructureDynIter::new(source, split_idx)`: split the slot array at
`split_idx`, peel off the center element; fails (`Err` in the source)
when `split_idx` is out of bounds. -/
def StructureDynIter.new {α} (source : List (StructureEntry α)) (split_idx : Nat) :
    Option (StructureEntry α × StructureDynIter α) :=
  match (source.drop split_idx).head? with
  | none => none
  | some center =>
    some (center,
      { left_start := 0
        left := source.take split_idx
        right_start := split_idx + 1
        right := source.drop (split_idx + 1) })

/-- `StructureDynIter::get_at` — accessor without generation checking. -/
def StructureDynIter.get_at {α} (self : StructureDynIter α) (idx : Nat) :
    Option (StructureEntry α) :=
  if self.left_start ≤ idx ∧ idx < self.left_start + self.left.length then
    self.left[idx - self.left_start]?
  else if self.right_start ≤ idx ∧ idx < self.right_start + self.right.length then
    self.right[idx - self.right_start]?
  else
    none

/-- `StructureDynIter::get` — accessor with generation checking
(`structure.rs` lines 112–129). -/
def StructureDynIter.get {α} (self : StructureDynIter α) (id : StructureId) :
    Option α :=
  let idx := id.id
  if self.left_start ≤ idx ∧ idx < self.left_start + self.left.length then
    ((self.left[idx - self.left_start]?).filter (fun s => s.gen == id.gen)).bind
      (fun s => s.bundle)
  else if self.right_start ≤ idx ∧ idx < self.right_start + self.right.length then
    ((self.right[idx - self.right_start]?).filter (fun s => s.gen == id.gen)).bind
      (fun s => s.bundle)
  else
    none

/-- `StructureDynIter::dyn_iter_id`: enumerate both slices with their
global indices and current generations, keeping live entries only. -/
def StructureDynIter.dyn_iter_id {α} (self : StructureDynIter α) :
    List (StructureId × α) :=
  ((self.left.enum.map (fun p => (StructureId.mk (p.1 + self.left_start) p.2.gen, p.2)))
    ++ (self.right.enum.map (fun p => (StructureId.mk (p.1 + self.right_start) p.2.gen, p.2)))).filterMap
    (fun p => (p.2.bundle).map (fun b => (p.1, b)))

/-- The destruction step of `FactorishState::harvest`
(`lib.rs` lines 1558–1563): take the payload out of slot `i` and
increment that slot's generation.  Out-of-range `i` leaves the arena
unchanged (the source only produces `i` from `0..len`). -/
def harvestAt {α} (structures : List (StructureEntry α)) (i : Nat) :
    List (StructureEntry α) :=
  match structures[i]? with
  | none => structures
  | some e => structures.set i { gen := e.gen + 1, bundle := none }

/-- The slot-reuse step of structure placement (`lib.rs` lines
2128–2139): store the new payload in the empty slot `i`, leaving the
slot's generation as is (the id handed out for the new structure uses
that stored generation). -/
def placeAt {α} (structures : List (StructureEntry α)) (i : Nat) (b : α) :
    List (StructureEntry α) :=
  match structures[i]? with
  | none => structures
  | some e => structures.set i { gen := e.gen, bundle := some b }

/-- `FactorishState::get_pair_mut(a, b)` (`lib.rs` lines 1035–1098):
simultaneous lookup of two distinct slots; the `a == b` branch returns
`(None, None)`.  Live payloads are returned with their generation-stamped
ids.  (In the source an out-of-range index on the smaller side panics on
slice indexing — a fatal precondition violation per the arena contract —
so the embedding is total via `get?` and the theorems only use in-range
indices.) -/
def get_pair_mut {α} (structures : List (StructureEntry α)) (a b : Nat) :
    Option (StructureId × α) × Option (StructureId × α) :=
  if a < b then
    ((structures[a]?).bind
        (fun s => s.bundle.map (fun d => (StructureId.mk a s.gen, d))),
     (structures[b]?).bind
        (fun s => s.bundle.map (fun d => (StructureId.mk b s.gen, d))))
  else if b < a then
    ((structures[a]?).bind
        (fun s => s.bundle.map (fun d => (StructureId.mk a s.gen, d))),
     (structures[b]?).bind
        (fun s => s.bundle.map (fun d => (StructureId.mk b s.gen, d))))
  else
    (none, none)

/-! ## Positions and power wires (`src/structure.rs`, `src/lib.rs`) -/

/-- `struct Position { x: i32, y: i32 }`. -/
structure Position where
  x : Int
  y : Int
deriving DecidableEq, Repr

/-- `Position::distance` (`structure.rs` lines 222–224):
`(position.x - self.x).abs().max((position.y - self.y).abs())`,
the Chebyshev distance. -/
def Position.distance (self position : Position) : Int :=
  max |position.x - self.x| |position.y - self.y|

/-- The power-relevant face of a structure: the capability predicates
`power_source` / `power_sink`, `wire_reach` and the stored position, as
queried by the wire-formation loop in `FactorishState::mouse_up`. -/
structure PowerFace where
  position : Position
  power_source : Bool
  power_sink : Bool
  wire_reach : Nat
deriving DecidableEq, Repr

/-- `struct PowerWire(StructureId, StructureId)`. -/
structure PowerWire where
  fst : StructureId
  snd : StructureId
deriving DecidableEq, Repr

/-- The wire-candidate condition of `mouse_up` (`lib.rs` lines
2101–2104): mutual source/sink compatibility within the minimum of the
two wire reaches (Chebyshev). -/
def wireCond (new_s other : PowerFace) : Prop :=
  ((new_s.power_sink && other.power_source) = true ∨
   (new_s.power_source && other.power_sink) = true) ∧
  new_s.position.distance other.position ≤ (min new_s.wire_reach other.wire_reach : Nat)

instance (new_s other : PowerFace) : Decidable (wireCond new_s other) := by
  unfold wireCond; infer_instance

/-- The wire-formation loop of `FactorishState::mouse_up` (`lib.rs` lines
2090–2113), folded over the enumerated slot array: for each live
structure satisfying `wireCond`, push `PowerWire(id, other_id)` unless an
equal wire is already in the list. -/
def addWiresLoop (new_s : PowerFace) (id : StructureId) :
    List (Nat × StructureEntry PowerFace) → List PowerWire → List PowerWire
  | [], wires => wires
  | (i, s) :: rest, wires =>
    match s.bundle with
    | none => addWiresLoop new_s id rest wires
    | some st =>
      if wireCond new_s st then
        let new_power_wire : PowerWire := ⟨id, ⟨i, s.gen⟩⟩
        if new_power_wire ∈ wires then
          addWiresLoop new_s id rest wires
        else
          addWiresLoop new_s id rest (wires ++ [new_power_wire])
      else
        addWiresLoop new_s id rest wires

/-- Wire formation on placement: run the loop over the whole enumerated
slot array. -/
def addWiresOnPlace (new_s : PowerFace) (id : StructureId)
    (structures : List (StructureEntry PowerFace)) (power_wires : List PowerWire) :
    List PowerWire :=
  addWiresLoop new_s id structures.enum power_wires

/-! ## Save/load remapping (`src/lib.rs`) -/

/-- The structure list written on save (`lib.rs` lines 693–715): live
payloads only, in arena order. -/
def serializeStructures {α} (structures : List (StructureEntry α)) : List α :=
  structures.filterMap (fun entry => entry.bundle)

/-- The `id_to_index` map of `serialize_game` (`lib.rs` lines 717–734) as
an association list: enumerate all slots with their generation-stamped
ids, keep the live ones, and pair each with its compacted save-index. -/
def idToIndex {α} (structures : List (StructureEntry α)) : List (StructureId × Nat) :=
  (((structures.enum.map (fun p => (StructureId.mk p.1 p.2.gen, p.2))).filter
      (fun p => p.2.bundle.isSome)).enum.map
    (fun p => (p.2.1, p.1)))

/-- Lookup in the `id_to_index` map (`HashMap::get`; slot indices are
unique so the association list has distinct keys). -/
def idToIndexGet {α} (structures : List (StructureEntry α)) (id : StructureId) :
    Option Nat :=
  ((idToIndex structures).find? (fun p => p.1 == id)).map (fun p => p.2)

/-- Power-wire serialization (`lib.rs` lines 735–745): keep a wire only
when both endpoints map through `id_to_index`, writing the compacted
indices. -/
def serializeWires {α} (structures : List (StructureEntry α))
    (power_wires : List PowerWire) : List (Nat × Nat) :=
  power_wires.filterMap (fun w =>
    (idToIndexGet structures w.fst).bind (fun a =>
      (idToIndexGet structures w.snd).map (fun b => (a, b))))

/-- Structure rehydration on load (`lib.rs` lines 909–921): one entry per
saved structure, in save order, generation 0. -/
def deserializeStructures {α} (saved : List α) : List (StructureEntry α) :=
  saved.map (fun s => { gen := 0, bundle := some s })

/-- Power-wire rehydration on load (`lib.rs` lines 923–939): each saved
index pair becomes a wire between generation-0 handles. -/
def deserializeWires (saved : List (Nat × Nat)) : List PowerWire :=
  saved.map (fun w => ⟨⟨w.1, 0⟩, ⟨w.2, 0⟩⟩)

/-! ## `FluidBox::update_connections` (`fluid_box.rs` lines 77–91) -/

/-- The body of the `for` loop in `update_connections`, folded over the
connection targets that matched the entity.  Faithful to the source:
`idx` is threaded through *unchanged* (the source initializes `let mut
idx = 0;` and never increments it), each in-bounds iteration writes
`connect_to[idx]`, and an out-of-bounds `idx` yields the
"More than 4 connections in a fluid box!" error. -/
def update_connections_loop (connect_len idx : Nat) (targets : List Entity)
    (connect_to : List (Option Entity)) : Except String (List (Option Entity)) :=
  match targets with
  | [] => .ok connect_to
  | t :: rest =>
    if idx < connect_len then
      update_connections_loop connect_len idx rest (connect_to.set idx (some t))
    else
      .error "More than 4 connections in a fluid box!"

/-- `FluidBox::update_connections(entity, connections)`: filter the
connection list to pairs whose `from` side equals `entity`, then run the
loop starting at `idx = 0`. -/
def FluidBox.update_connections (fb : FluidBox) (entity : Entity)
    (connections : List (Entity × Entity)) : Except String FluidBox :=
  match update_connections_loop fb.connect_to.length 0
      ((connections.filter (fun c => c.1 == entity)).map (fun c => c.2))
      fb.connect_to with
  | .ok ct => .ok { fb with connect_to := ct }
  | .error e => .error e

/-! ## `FactorishState::deserialize_game` (`lib.rs` lines 807–990)

The input document is modelled as a record of optional fields; `none`
stands for "missing or of the wrong shape" (both make the corresponding
`serde_json` access in the source fail).  Field payloads irrelevant to
the control flow are modelled by simple placeholder types.  The state
carries exactly the fields the function assigns.  Steps of the source
that cannot fail before the final `Ok(())` of interest
(`calculate_back_image_all`, `build_power_networks`, index building,
minimap redraw, and the post-load `on_construction_self` notifications,
which only involve behaviors outside this model) are elided; every
fallible parse up to and including `tool_belt` is modelled in source
order, interleaved with the assignments exactly as the source performs
them. -/

/-- `const SAVE_VERSION: i64 = 5;`. -/
def SAVE_VERSION : Int := 5

/-- The subset of `FactorishState` assigned by `deserialize_game`. -/
structure GameState (α : Type) where
  sim_time : ℚ
  player : Nat
  viewport : Nat
  width : Nat
  height : Nat
  bounds : Option Nat
  board : List Nat
  structures : List (StructureEntry α)
  power_wires : List PowerWire
  drop_items : List Nat
  tool_belt : Nat
deriving DecidableEq, Repr

/-- A parsed save document; `none` = field missing or of the wrong
shape.  `version = none` models a document without a `version` key (the
source then uses 0).  The `board` field is a list of chunk payloads,
each `Option`: `none` stands for a chunk whose own parse fails (missing
position/data, wrong shape — `lib.rs` lines 883–904), which aborts the
per-chunk loop after the preceding chunks were already inserted. -/
structure SaveDoc (α : Type) where
  version : Option Int
  sim_time : Option ℚ
  player : Option Nat
  viewport : Option Nat
  width : Option Nat
  height : Option Nat
  bounds : Option (Option Nat)
  board : Option (List (Option Nat))
  structures : Option (List α)
  power_wires : Option (List (Nat × Nat))
  items : Option (List Nat)
  tool_belt : Option Nat
deriving Repr

/-- The per-chunk board loop of `deserialize_game` (`lib.rs` lines
882–906): `self.board` was just cleared; each chunk is parsed and
inserted in turn, and a failing chunk aborts the loop with the chunks
before it already inserted (the failing one is not). -/
def parseBoard {α} (st : GameState α) : List (Option Nat) → GameState α × Except String Unit
  | [] => (st, .ok ())
  | none :: _ => (st, .error "Chunk does not have data")
  | some c :: rest => parseBoard { st with board := st.board ++ [c] } rest

/-- `deserialize_game`: returns the state as left behind by the call
paired with the result (`Err` carries the message of the failing step).
Mirrors the source order: version check first, then
`self.structures.clear(); self.drop_items.clear();`, then the fallible
field parses with their interleaved assignments. -/
def deserialize_game {α} (st : GameState α) (doc : SaveDoc α) :
    GameState α × Except String Unit :=
  let version := doc.version.getD 0
  if version < SAVE_VERSION then
    (st, .error "Save data version is too old. Please start a new game.")
  else
    let st := { st with structures := [], drop_items := [] }
    match doc.sim_time with
    | none => (st, .error "sim_time is not float")
    | some sim_time =>
    let st := { st with sim_time := sim_time }
    match doc.player with
    | none => (st, .error "player deserialization error")
    | some player =>
    let st := { st with player := player }
    let st := { st with viewport := doc.viewport.getD 0 }
    match doc.width with
    | none => (st, .error "width not found")
    | some width =>
    let st := { st with width := width }
    match doc.height with
    | none => (st, .error "height not found")
    | some height =>
    let st := { st with height := height }
    let st := { st with bounds := (doc.bounds.getD none) }
    match doc.board with
    | none => (st, .error "board not found in saved data")
    | some chunks =>
    match parseBoard { st with board := [] } chunks with
    | (st, .error e) => (st, .error e)
    | (st, .ok _) =>
    match doc.structures with
    | none => (st, .error "structures not found in saved data")
    | some saved_structures =>
    match doc.power_wires with
    | none => (st, .error "power_wires not found in saved data")
    | some saved_wires =>
    let st := { st with power_wires := deserializeWires saved_wires }
    let st := { st with structures := deserializeStructures saved_structures }
    match doc.items with
    | none => (st, .error "items not found")
    | some items =>
    let st := { st with drop_items := items }
    match doc.tool_belt with
    | none => (st, .error "tool_belt deserialization error")
    | some tool_belt =>
    ({ st with tool_belt := tool_belt }, .ok ())

/-! ## Link-application view used for the filter invariant -/

/-- One per-link transfer in which `box` participates either as the
`self` container (`step.1 = true`, `box` is `self_box`) or as the
neighbor container (`step.1 = false`, `box` is `fluid_box`), the other
container of the link being `step.2`. -/
def applyLink (box : FluidBox) (step : Bool × FluidBox) : FluidBox :=
  if step.1 then (process_fluid_box box step.2).1
  else (process_fluid_box step.2 box).2

/-- A container's trajectory through any finite sequence of per-link
transfers, in either role at each step. -/
def runLinks (box : FluidBox) (steps : List (Bool × FluidBox)) : FluidBox :=
  steps.foldl applyLink box

/-! ## Concrete containers used in scenarios -/

/-- A pipe-style container holding 50 units of water (valves open, no
filter, capacity 100 — the `FluidBox::new(true, true)` defaults). -/
def pipeBox50 : FluidBox := { FluidBox.new true true with type_ := some .Water, amount := 50 }

/-- A pipe-style container holding 10 units of water. -/
def pipeBox10 : FluidBox := { FluidBox.new true true with type_ := some .Water, amount := 10 }

/-- A container with 50 units and an *unset* fluid kind (valves open, no
filter). -/
def untypedBox50 : FluidBox := { FluidBox.new true true with amount := 50 }

/-- A container holding 100 units of water. -/
def waterBox100 : FluidBox := { FluidBox.new true true with type_ := some .Water, amount := 100 }

/-- An empty container whose filter is set to `Steam`. -/
def steamFilteredBox : FluidBox := { FluidBox.new true true with filter := some .Steam }

/-! ## Fluid lemmas -/

theorem process_fluid_box_amount_sum (a b : FluidBox) :
    (process_fluid_box a b).1.amount + (process_fluid_box a b).2.amount
      = a.amount + b.amount := by
  unfold process_fluid_box
  dsimp only
  split_ifs <;> (try dsimp) <;> ring

theorem tickPair_amount_sum (p : FluidBox × FluidBox) :
    (tickPair p).1.amount + (tickPair p).2.amount = p.1.amount + p.2.amount := by
  unfold tickPair
  dsimp only
  split_ifs <;> (try dsimp) <;>
    linarith [process_fluid_box_amount_sum p.1 p.2,
      process_fluid_box_amount_sum p.2 p.1,
      process_fluid_box_amount_sum (process_fluid_box p.1 p.2).2 (process_fluid_box p.1 p.2).1]

theorem tickPair_iterate_amount_sum (p : FluidBox × FluidBox) (n : ℕ) :
    (tickPair^[n] p).1.amount + (tickPair^[n] p).2.amount
      = p.1.amount + p.2.amount := by
  induction n with
  | zero => simp
  | succ n ih => rw [Function.iterate_succ_apply', tickPair_amount_sum]; exact ih

theorem process_fluid_box_filter_fst (a b : FluidBox) :
    (process_fluid_box a b).1.filter = a.filter := by
  unfold process_fluid_box
  dsimp only
  split_ifs <;> rfl

theorem process_fluid_box_filter_snd (a b : FluidBox) :
    (process_fluid_box a b).2.filter = b.filter := by
  unfold process_fluid_box
  dsimp only
  split_ifs <;> rfl

/-- When the self container carries a filter, its kind after a link step
is either unchanged or equal to its filter (the receiving-side filter
check forces the giver's kind to match before any kind is copied). -/
theorem process_fluid_box_type_fst (a b : FluidBox) (f : FluidType)
    (hf : a.filter = some f) :
    (process_fluid_box a b).1.type_ = a.type_
      ∨ (process_fluid_box a b).1.type_ = some f := by
  unfold process_fluid_box
  dsimp only
  split_ifs with h1 h2 h3
  · exact Or.inl rfl
  · exact Or.inl rfl
  · exact Or.inl rfl
  · right
    unfold valveBlocked at h2
    rw [if_neg h3] at h2
    simp [hf] at h2
    dsimp
    exact h2.2.symm

/-- Mirror statement for the neighbor container of a link step. -/
theorem process_fluid_box_type_snd (a b : FluidBox) (f : FluidType)
    (hf : b.filter = some f) :
    (process_fluid_box a b).2.type_ = b.type_
      ∨ (process_fluid_box a b).2.type_ = some f := by
  unfold process_fluid_box
  dsimp only
  split_ifs with h1 h2 h3
  · exact Or.inl rfl
  · exact Or.inl rfl
  · right
    unfold valveBlocked at h2
    rw [if_pos h3] at h2
    simp [hf] at h2
    dsimp
    exact h2.2.symm
  · exact Or.inl rfl

theorem applyLink_filter (box : FluidBox) (step : Bool × FluidBox) :
    (applyLink box step).filter = box.filter := by
  unfold applyLink
  split_ifs
  · exact process_fluid_box_filter_fst _ _
  · exact process_fluid_box_filter_snd _ _

theorem applyLink_type (box : FluidBox) (step : Bool × FluidBox) (f : FluidType)
    (hf : box.filter = some f) :
    (applyLink box step).type_ = box.type_ ∨ (applyLink box step).type_ = some f := by
  unfold applyLink
  split_ifs
  · exact process_fluid_box_type_fst _ _ _ hf
  · exact process_fluid_box_type_snd _ _ _ hf

theorem runLinks_type_invariant (f g : FluidType) (hfg : f ≠ g)
    (box : FluidBox) (hf : box.filter = some f) (ht : box.type_ ≠ some g) :
    ∀ steps : List (Bool × FluidBox),
      (runLinks box steps).type_ ≠ some g ∧ (runLinks box steps).filter = some f := by
  intro steps
  induction steps generalizing box with
  | nil => exact ⟨ht, hf⟩
  | cons s rest ih =>
    have hfil := applyLink_filter box s
    rw [hf] at hfil
    have htyp := applyLink_type box s f hf
    refine ih (applyLink box s) hfil ?_
    rcases htyp with h | h
    · rw [h]; exact ht
    · rw [h]; intro hc; exact hfg (Option.some_injective _ hc)

/-- Receiving-side abort, self role: when the self container's filter is
set and differs from the neighbor's kind, a non-negative flow (self would
receive) leaves both containers untouched. -/
theorem process_fluid_box_self_filter_abort (a b : FluidBox)
    (hfs : a.filter.isSome = true) (hne : a.filter ≠ b.type_)
    (hflow : ¬((b.amount - a.amount) * (1/10) < 0)) :
    process_fluid_box a b = (a, b) := by
  unfold process_fluid_box
  dsimp only
  split_ifs with h1 h2
  · rfl
  · rfl
  · exfalso
    apply h2
    unfold valveBlocked
    rw [if_neg hflow]
    simp [hfs, hne]

/-- Receiving-side abort, neighbor role: when the neighbor container's
filter is set and differs from the self container's kind, a negative flow
(neighbor would receive) leaves both containers untouched. -/
theorem process_fluid_box_neighbor_filter_abort (a b : FluidBox)
    (hfs : b.filter.isSome = true) (hne : b.filter ≠ a.type_)
    (hflow : (b.amount - a.amount) * (1/10) < 0) :
    process_fluid_box a b = (a, b) := by
  unfold process_fluid_box
  dsimp only
  split_ifs with h1 h2
  · rfl
  · rfl
  · exfalso
    apply h2
    unfold valveBlocked
    rw [if_pos hflow]
    simp [hfs, hne]

/-! ## Claim theorems: fluid flow -/

/-- **C3**: for two linked containers with no external source or sink,
one application of the per-link transfer step — and hence any number of
engine ticks over just these two containers — leaves the total amount
unchanged: flow only moves amount between the two. -/
theorem claim_fluid_conservation (a b : FluidBox) (n : ℕ) :
    (process_fluid_box a b).1.amount + (process_fluid_box a b).2.amount
        = a.amount + b.amount
    ∧ (tickPair^[n] (a, b)).1.amount + (tickPair^[n] (a, b)).2.amount
        = a.amount + b.amount :=
  ⟨process_fluid_box_amount_sum a b, tickPair_iterate_amount_sum (a, b) n⟩

/-- Counterexample to **C6** as stated: a self container whose kind is
*unset* (`type_ = none`), with all valves open and no filters, is
nonetheless blocked by the mixing rule from receiving fluid from a
non-empty neighbor of kind `Water` — the code tests the *neighbor's*
kind being set, not the self container's. -/
theorem claim_mixing_rule_counterexample :
    untypedBox50.type_ = none
    ∧ waterBox100.type_ = some FluidType.Water
    ∧ 0 < waterBox100.amount
    ∧ untypedBox50.input_enable = true
    ∧ waterBox100.output_enable = true
    ∧ untypedBox50.filter = none
    ∧ waterBox100.filter = none
    ∧ process_fluid_box untypedBox50 waterBox100 = (untypedBox50, waterBox100) := by
  refine ⟨rfl, rfl, by norm_num [waterBox100, FluidBox.new], rfl, rfl, rfl, rfl, ?_⟩
  simp [process_fluid_box, mixingBlocked, untypedBox50, waterBox100, FluidBox.new]

/-- **C6 (amended)**: the per-link step skips the link when the
*neighbor* holds a non-zero amount of a kind different from the self
container's kind and the *neighbor's* kind is set (not the self
container's, as the claim stated); and the mixing rule skips only under
exactly that condition — when it does not hold (and the valves permit)
the transfer is applied with the full flow. -/
theorem claim_mixing_rule_amended (a b : FluidBox) :
    (0 < b.amount → b.type_ ≠ a.type_ → b.type_.isSome = true →
      process_fluid_box a b = (a, b))
    ∧ (¬ mixingBlocked a b →
        valveBlocked a b ((b.amount - a.amount) * (1/10)) = false →
        (process_fluid_box a b).1.amount = a.amount + (b.amount - a.amount) * (1/10)
        ∧ (process_fluid_box a b).2.amount = b.amount - (b.amount - a.amount) * (1/10)) := by
  constructor
  · intro h1 h2 h3
    unfold process_fluid_box
    rw [if_pos ⟨h1, h2, h3⟩]
  · intro hmix hvalve
    unfold process_fluid_box
    dsimp only
    rw [if_neg hmix, if_neg (by rw [hvalve]; exact Bool.false_ne_true)]
    split_ifs <;> exact ⟨rfl, rfl⟩

/-- Witness for **C6 (amended)** at concrete containers: the mixing rule
blocks an untyped receiver from a water neighbor, and two water pipes at
50/10 transfer the full flow. -/
theorem claim_mixing_rule_amended_witness :
    process_fluid_box untypedBox50 waterBox100 = (untypedBox50, waterBox100)
    ∧ (process_fluid_box pipeBox50 pipeBox10).1.amount
        = pipeBox50.amount + (pipeBox10.amount - pipeBox50.amount) * (1/10) := by
  constructor
  · exact (claim_mixing_rule_amended untypedBox50 waterBox100).1
      (by norm_num [waterBox100, FluidBox.new])
      (by simp [waterBox100, untypedBox50, FluidBox.new])
      (by simp [waterBox100, FluidBox.new])
  · exact ((claim_mixing_rule_amended pipeBox50 pipeBox10).2
      (by simp [mixingBlocked, pipeBox50, pipeBox10, FluidBox.new])
      (by norm_num [valveBlocked, pipeBox50, pipeBox10, FluidBox.new])).1

/-- **C7**: a container whose filter is `Steam` never accumulates
`Water`: whichever side of a link would make it receive a kind different
from its filter aborts with no partial transfer, and through any finite
sequence of per-link transfers (in either role) its kind never becomes
`Water`. -/
theorem claim_steam_filter_never_water (box : FluidBox)
    (hf : box.filter = some FluidType.Steam)
    (ht : box.type_ ≠ some FluidType.Water) :
    (∀ other : FluidBox, box.filter ≠ other.type_ →
        ¬((other.amount - box.amount) * (1/10) < 0) →
        process_fluid_box box other = (box, other))
    ∧ (∀ other : FluidBox, box.filter ≠ other.type_ →
        (box.amount - other.amount) * (1/10) < 0 →
        process_fluid_box other box = (other, box))
    ∧ (∀ steps : List (Bool × FluidBox),
        (runLinks box steps).type_ ≠ some FluidType.Water) := by
  refine ⟨?_, ?_, ?_⟩
  · intro other hne hflow
    exact process_fluid_box_self_filter_abort box other (by rw [hf]; rfl) hne hflow
  · intro other hne hflow
    exact process_fluid_box_neighbor_filter_abort other box (by rw [hf]; rfl) hne hflow
  · intro steps
    exact (runLinks_type_invariant FluidType.Steam FluidType.Water
      (by intro h; cases h) box hf ht steps).1

/-- Witness for **C7**: the empty steam-filtered container refuses water
from a full water pipe and stays non-water through a two-step link
sequence in both roles. -/
theorem claim_steam_filter_never_water_witness :
    process_fluid_box steamFilteredBox waterBox100 = (steamFilteredBox, waterBox100)
    ∧ (runLinks steamFilteredBox [(true, waterBox100), (false, waterBox100)]).type_
        ≠ some FluidType.Water := by
  have h := claim_steam_filter_never_water steamFilteredBox rfl
    (by simp [steamFilteredBox, FluidBox.new])
  exact ⟨h.1 waterBox100 (by simp [steamFilteredBox, waterBox100, FluidBox.new])
      (by norm_num [steamFilteredBox, waterBox100, FluidBox.new]),
    h.2.2 [(true, waterBox100), (false, waterBox100)]⟩

/-- **C9**: two adjacent linked pipes, self at 50 (capacity 100) and
neighbor at 10, valves open, no filters: the flow is
`(10 - 50) * 0.1 = -4`, the self container ends at 46 and the neighbor
at 14. -/
theorem claim_two_pipes_scenario :
    (pipeBox10.amount - pipeBox50.amount) * (1/10) = -4
    ∧ (process_fluid_box pipeBox50 pipeBox10).1.amount = 46
    ∧ (process_fluid_box pipeBox50 pipeBox10).2.amount = 14 := by
  refine ⟨by norm_num [pipeBox50, pipeBox10, FluidBox.new], ?_⟩
  constructor <;>
    · simp [process_fluid_box, mixingBlocked, valveBlocked, pipeBox50, pipeBox10,
        FluidBox.new]
      norm_num

/-! ## Claim theorems: `update_connections` -/

theorem update_connections_loop_spec (len : Nat) (hlen : 0 < len)
    (targets : List Entity) (ct : List (Option Entity)) :
    update_connections_loop len 0 targets ct
      = .ok (match targets.getLast? with
             | none => ct
             | some t => ct.set 0 (some t)) := by
  induction targets generalizing ct with
  | nil => rfl
  | cons t rest ih =>
    unfold update_connections_loop
    rw [if_pos hlen, ih]
    cases rest with
    | nil => simp
    | cons t' rest' =>
      rw [List.getLast?_cons_cons]
      cases h : (t' :: rest').getLast? with
      | none => simp at h
      | some s => simp [List.set_set]

/-- **C10**: `update_connections` always returns `Ok` — the
"More than 4 connections" error branch is unreachable because the loop
counter `idx` starts at 0 and is never incremented — and every
connection matching the entity is written to `connect_to[0]`, each
overwriting the previous (the last match wins), leaving slots 1–3
unchanged. -/
theorem claim_update_connections (fb : FluidBox) (entity : Entity)
    (connections : List (Entity × Entity)) (hlen : fb.connect_to.length = 4) :
    fb.update_connections entity connections
      = .ok { fb with connect_to :=
          match ((connections.filter (fun c => c.1 == entity)).map
                  (fun c => c.2)).getLast? with
          | none => fb.connect_to
          | some t => fb.connect_to.set 0 (some t) } := by
  unfold FluidBox.update_connections
  rw [update_connections_loop_spec _ (by omega)]

/-- Witness for **C10**: a fresh fluid box with matching connections
`(0,7)` and `(0,9)` and non-matching `(1,8)` gets `Ok` back with slot 0
holding the last match, 9, and slots 1–3 untouched. -/
theorem claim_update_connections_witness :
    (FluidBox.new true true).update_connections 0 [(0, 7), (1, 8), (0, 9)]
      = .ok { FluidBox.new true true with connect_to := [some 9, none, none, none] } := by
  have h := claim_update_connections (FluidBox.new true true) 0 [(0, 7), (1, 8), (0, 9)]
    (by rfl)
  simpa using h

/-! ## Claim theorems: structure arena -/

/-- The set of global slot indices reachable through a split-borrow
view: the left slice's positions shifted by `left_start`, then the right
slice's shifted by `right_start`. -/
def StructureDynIter.viewIndices {α} (self : StructureDynIter α) : List Nat :=
  self.left.enum.map (fun p => p.1 + self.left_start)
    ++ self.right.enum.map (fun p => p.1 + self.right_start)

/-- Generation-checked lookup over the whole arena: `Some` exactly when
the slot exists, its generation matches, and it is live. -/
theorem get_new_all_spec {α} (s : List (StructureEntry α)) (h : StructureId) (b : α) :
    (StructureDynIter.new_all s).get h = some b
      ↔ ∃ e, s[h.id]? = some e ∧ e.gen = h.gen ∧ e.bundle = some b := by
  unfold StructureDynIter.new_all StructureDynIter.get
  dsimp only
  by_cases hlt : h.id < s.length
  · rw [if_pos ⟨Nat.zero_le _, by omega⟩]
    simp only [Nat.sub_zero]
    cases hg : s[h.id]? with
    | none => simp [hg]
    | some e =>
      by_cases hgen : e.gen = h.gen
      · simp [hg, Option.filter, hgen]
      · simp [hg, Option.filter, hgen]
  · rw [if_neg (by omega), if_neg (by simp only [List.length_nil]; omega)]
    rw [List.getElem?_eq_none (by omega)]
    simp

/-- A concrete two-slot arena (bundles are bare numbers) used by the
witnesses. -/
def sampleArena : List (StructureEntry Nat) := [⟨0, some 10⟩, ⟨3, some 20⟩]

/-- **C1**: the arena's generation-checked lookup returns `Some` iff the
slot at `h.id` is live and its stored generation equals `h.gen`; after
`harvest` destroys the structure at an index (incrementing the slot's
generation) and a new structure is placed reusing that index, a handle
carrying the old generation resolves to `None`, never to the new
occupant. -/
theorem claim_handle_validity {α} (s : List (StructureEntry α)) (h : StructureId) :
    (∀ b : α, (StructureDynIter.new_all s).get h = some b
        ↔ ∃ e, s[h.id]? = some e ∧ e.gen = h.gen ∧ e.bundle = some b)
    ∧ (∀ (i : Nat) (e : StructureEntry α) (b' : α), s[i]? = some e →
        e.bundle.isSome = true →
        (StructureDynIter.new_all (placeAt (harvestAt s i) i b')).get ⟨i, e.gen⟩ = none) := by
  refine ⟨fun b => get_new_all_spec s h b, ?_⟩
  intro i e b' hget hlive
  have hlen : i < s.length := by
    by_contra hc
    rw [List.getElem?_eq_none (by omega)] at hget
    exact Option.noConfusion hget
  have h1 : harvestAt s i = s.set i ⟨e.gen + 1, none⟩ := by
    unfold harvestAt; rw [hget]
  have h2 : placeAt (harvestAt s i) i b' = s.set i ⟨e.gen + 1, some b'⟩ := by
    rw [h1]
    unfold placeAt
    rw [List.getElem?_set_self (by simpa using hlen)]
    simp only [List.set_set]
  rw [h2]
  cases hv : (StructureDynIter.new_all (s.set i ⟨e.gen + 1, some b'⟩)).get ⟨i, e.gen⟩ with
  | none => rfl
  | some b =>
    exfalso
    rcases (get_new_all_spec _ _ _).mp hv with ⟨e', he', hgen, hb⟩
    dsimp at he'
    rw [List.getElem?_set_self (by simpa using hlen)] at he'
    cases he'
    dsimp at hgen
    omega

/-- Witness for **C1**: in the two-slot arena, the live handle `(1, 3)`
resolves to its bundle, and after harvesting slot 1 and re-placing a new
bundle there the stale handle resolves to `None`. -/
theorem claim_handle_validity_witness :
    (StructureDynIter.new_all sampleArena).get ⟨1, 3⟩ = some 20
    ∧ (StructureDynIter.new_all (placeAt (harvestAt sampleArena 1) 1 99)).get
        ⟨1, 3⟩ = none :=
  ⟨((claim_handle_validity sampleArena ⟨1, 3⟩).1 20).mpr ⟨⟨3, some 20⟩, rfl, rfl, rfl⟩,
    (claim_handle_validity sampleArena ⟨1, 3⟩).2 1 ⟨3, some 20⟩ 99 rfl rfl⟩

/-- **C2**: for every in-bounds split index `i`, the per-index split
returns the entry at `i` as the exclusive center together with an
"others" view in which indexed access to `i` yields `None`, every other
index reads through to the arena, and whose reachable index list is
exactly every index other than `i`, once each; and `get_pair_mut` with
equal indices returns `(None, None)` rather than panicking. -/
theorem claim_split_borrow (s : List (StructureEntry Nat)) (i : Nat)
    (hi : i < s.length) :
    (∃ center others, StructureDynIter.new s i = some (center, others)
      ∧ s[i]? = some center
      ∧ others.get_at i = none
      ∧ (∀ j, j ≠ i → others.get_at j = s[j]?)
      ∧ others.viewIndices = (List.range s.length).filter (fun j => j != i))
    ∧ (∀ (t : List (StructureEntry Nat)) (a : Nat), get_pair_mut t a a = (none, none)) := by
  constructor
  · have hhead : (s.drop i).head? = some (s.get ⟨i, hi⟩) := by
      rw [List.head?_drop]
      simpa using List.getElem?_eq_getElem hi
    refine ⟨s.get ⟨i, hi⟩, ⟨0, s.take i, i + 1, s.drop (i + 1)⟩, ?_, ?_, ?_, ?_, ?_⟩
    · unfold StructureDynIter.new
      rw [hhead]
    · simpa using List.getElem?_eq_getElem hi
    · unfold StructureDynIter.get_at
      dsimp only
      rw [if_neg (by simp only [List.length_take]; omega),
        if_neg (by simp only [List.length_drop]; omega)]
    · intro j hj
      unfold StructureDynIter.get_at
      dsimp only
      by_cases h1 : j < i
      · rw [if_pos ⟨Nat.zero_le _, by simp only [List.length_take]; omega⟩]
        simp only [Nat.sub_zero]
        exact List.getElem?_take_of_lt h1
      · by_cases h2 : j < s.length
        · rw [if_neg (by simp only [List.length_take]; omega),
            if_pos ⟨by omega, by simp only [List.length_drop]; omega⟩]
          rw [List.getElem?_drop]
          congr 1
          omega
        · rw [if_neg (by simp only [List.length_take]; omega),
            if_neg (by simp only [List.length_drop]; omega)]
          exact (List.getElem?_eq_none (by omega)).symm
    · unfold StructureDynIter.viewIndices
      dsimp only
      have hleft : (s.take i).enum.map (fun p => p.1 + 0) = List.range i := by
        simp only [Nat.add_zero]
        have h4 := List.enum_map_fst (s.take i)
        simpa [List.length_take, Nat.min_eq_left (Nat.le_of_lt hi)] using h4
      have hright : (s.drop (i + 1)).enum.map (fun p => p.1 + (i + 1))
          = (List.range (s.length - (i + 1))).map (fun k => k + (i + 1)) := by
        have h5 : (s.drop (i + 1)).enum.map (fun p => p.1 + (i + 1))
            = ((s.drop (i + 1)).enum.map Prod.fst).map (fun k => k + (i + 1)) := by
          rw [List.map_map]; rfl
        rw [h5, List.enum_map_fst, List.length_drop]
      have hfa : (List.range i).filter (fun j => j != i) = List.range i :=
        List.filter_eq_self.mpr (by
          intro a ha
          simp only [List.mem_range] at ha
          simp
          omega)
      have hfb : [i].filter (fun j => j != i) = ([] : List Nat) := by simp
      have hfc : ((List.range (s.length - (i + 1))).map ((i + 1) + ·)).filter
          (fun j => j != i) = (List.range (s.length - (i + 1))).map ((i + 1) + ·) :=
        List.filter_eq_self.mpr (by
          intro a ha
          simp only [List.mem_map, List.mem_range] at ha
          obtain ⟨k, hk, rfl⟩ := ha
          simp
          omega)
      have hr : (List.range s.length).filter (fun j => j != i)
          = List.range i ++ (List.range (s.length - (i + 1))).map (fun k => k + (i + 1)) := by
        conv_lhs => rw [show s.length = (i + 1) + (s.length - (i + 1)) by omega]
        rw [List.range_add, List.filter_append, List.range_succ, List.filter_append,
          hfa, hfb, hfc, List.append_nil]
        congr 1
        apply List.map_congr_left
        intro a ha
        omega
      rw [hleft, hright, hr]
  · intro t a
    unfold get_pair_mut
    rw [if_neg (lt_irrefl a), if_neg (lt_irrefl a)]

/-- Witness for **C2**: the split at index 1 of the concrete two-slot
arena, and the `a == b` no-pair rule. -/
theorem claim_split_borrow_witness :
    (∃ center others, StructureDynIter.new sampleArena 1 = some (center, others)
      ∧ sampleArena[1]? = some center
      ∧ others.get_at 1 = none
      ∧ (∀ j, j ≠ 1 → others.get_at j = sampleArena[j]?)
      ∧ others.viewIndices = (List.range sampleArena.length).filter (fun j => j != 1))
    ∧ (∀ (t : List (StructureEntry Nat)) (a : Nat), get_pair_mut t a a = (none, none)) :=
  claim_split_borrow sampleArena 1 (by simp [sampleArena])

/-! ## Claim theorems: power-wire formation -/

theorem mem_addWiresLoop (new_s : PowerFace) (id : StructureId)
    (l : List (Nat × StructureEntry PowerFace)) (wires : List PowerWire)
    (w : PowerWire) (hw : w ∈ wires) : w ∈ addWiresLoop new_s id l wires := by
  induction l generalizing wires with
  | nil => exact hw
  | cons p rest ih =>
    obtain ⟨i, s⟩ := p
    unfold addWiresLoop
    cases hb : s.bundle with
    | none => exact ih wires hw
    | some st =>
      dsimp only
      split_ifs with hcond hmem
      · exact ih wires hw
      · exact ih _ (List.mem_append_left _ hw)
      · exact ih wires hw

theorem count_addWiresLoop_of_mem (new_s : PowerFace) (id : StructureId)
    (l : List (Nat × StructureEntry PowerFace)) (wires : List PowerWire)
    (w : PowerWire) (hw : w ∈ wires) :
    (addWiresLoop new_s id l wires).count w = wires.count w := by
  induction l generalizing wires with
  | nil => rfl
  | cons p rest ih =>
    obtain ⟨i, s⟩ := p
    unfold addWiresLoop
    cases hb : s.bundle with
    | none => exact ih wires hw
    | some st =>
      dsimp only
      split_ifs with hcond hmem
      · exact ih wires hw
      · rw [ih _ (List.mem_append_left _ hw), List.count_append]
        have hne : (⟨id, ⟨i, s.gen⟩⟩ : PowerWire) ≠ w := by
          intro hEq; rw [hEq] at hmem; exact hmem hw
        simp [List.count_singleton', hne]
      · exact ih wires hw

theorem count_addWiresLoop_of_not_mem (new_s : PowerFace) (id : StructureId)
    (l : List (Nat × StructureEntry PowerFace)) (wires : List PowerWire)
    (w : PowerWire) (hw : w ∉ wires) :
    (addWiresLoop new_s id l wires).count w ≤ 1 := by
  induction l generalizing wires with
  | nil => simp [addWiresLoop, List.count_eq_zero.mpr hw]
  | cons p rest ih =>
    obtain ⟨i, s⟩ := p
    unfold addWiresLoop
    cases hb : s.bundle with
    | none => exact ih wires hw
    | some st =>
      dsimp only
      split_ifs with hcond hmem
      · exact ih wires hw
      · by_cases hEq : (⟨id, ⟨i, s.gen⟩⟩ : PowerWire) = w
        · rw [count_addWiresLoop_of_mem _ _ _ _ _
            (by rw [hEq] at hmem ⊢; exact List.mem_append_right _ (List.mem_singleton_self w))]
          rw [List.count_append, List.count_eq_zero.mpr hw, hEq]
          simp
        · exact ih _ (by
            intro hc
            rcases List.mem_append.mp hc with h | h
            · exact hw h
            · rw [List.mem_singleton] at h
              exact hEq h.symm)
      · exact ih wires hw

theorem candidate_mem_addWiresLoop (new_s : PowerFace) (id : StructureId)
    (l : List (Nat × StructureEntry PowerFace)) (wires : List PowerWire)
    (i : Nat) (s : StructureEntry PowerFace) (st : PowerFace)
    (hmem : (i, s) ∈ l) (hb : s.bundle = some st) (hcond : wireCond new_s st) :
    (⟨id, ⟨i, s.gen⟩⟩ : PowerWire) ∈ addWiresLoop new_s id l wires := by
  induction l generalizing wires with
  | nil => cases hmem
  | cons p rest ih =>
    rcases List.mem_cons.mp hmem with hEq | hrest
    · subst hEq
      unfold addWiresLoop
      rw [hb]
      dsimp only
      rw [if_pos hcond]
      split_ifs with hmem2
      · exact mem_addWiresLoop _ _ _ _ _ hmem2
      · exact mem_addWiresLoop _ _ _ _ _
          (List.mem_append_right _ (List.mem_singleton_self _))
    · obtain ⟨i2, s2⟩ := p
      unfold addWiresLoop
      cases hb2 : s2.bundle with
      | none => exact ih wires hrest
      | some st2 =>
        dsimp only
        split_ifs with hcond2 hmem2
        · exact ih wires hrest
        · exact ih _ hrest
        · exact ih wires hrest

/-- **C4**: when a structure is placed, every already-existing live
structure that is source/sink-compatible with it and within
`min(reach_a, reach_b)` Chebyshev distance gets a power wire to the new
structure's id — one wire per compatible candidate, not only the
nearest — added exactly once when no identical wire is present, and not
re-added when one already is. -/
theorem claim_power_wire_formation (new_s : PowerFace) (id : StructureId)
    (structures : List (StructureEntry PowerFace)) (wires : List PowerWire)
    (i : Nat) (e : StructureEntry PowerFace) (st : PowerFace)
    (he : structures[i]? = some e) (hb : e.bundle = some st)
    (hc : wireCond new_s st) :
    (⟨id, ⟨i, e.gen⟩⟩ : PowerWire) ∈ addWiresOnPlace new_s id structures wires
    ∧ ((⟨id, ⟨i, e.gen⟩⟩ : PowerWire) ∉ wires →
        (addWiresOnPlace new_s id structures wires).count ⟨id, ⟨i, e.gen⟩⟩ = 1)
    ∧ ((⟨id, ⟨i, e.gen⟩⟩ : PowerWire) ∈ wires →
        (addWiresOnPlace new_s id structures wires).count ⟨id, ⟨i, e.gen⟩⟩
          = wires.count ⟨id, ⟨i, e.gen⟩⟩) := by
  have hmem : (i, e) ∈ structures.enum := List.mk_mem_enum_iff_getElem?.mpr he
  have h1 : (⟨id, ⟨i, e.gen⟩⟩ : PowerWire) ∈ addWiresOnPlace new_s id structures wires :=
    candidate_mem_addWiresLoop new_s id structures.enum wires i e st hmem hb hc
  refine ⟨h1, ?_, ?_⟩
  · intro hnw
    have hle := count_addWiresLoop_of_not_mem new_s id structures.enum wires _ hnw
    have hge : 0 < (addWiresOnPlace new_s id structures wires).count ⟨id, ⟨i, e.gen⟩⟩ :=
      List.count_pos_iff.mpr h1
    unfold addWiresOnPlace at hge ⊢
    omega
  · intro hw
    exact count_addWiresLoop_of_mem new_s id structures.enum wires _ hw

/-- An electric pole just placed at the origin: a power sink with wire
reach 5. -/
def polePlaced : PowerFace := ⟨⟨0, 0⟩, false, true, 5⟩

/-- An existing steam engine at (3, 0): a power source with the default
wire reach 3. -/
def engineFace : PowerFace := ⟨⟨3, 0⟩, true, false, 3⟩

/-- A one-slot arena holding only the steam engine. -/
def engineArena : List (StructureEntry PowerFace) := [⟨0, some engineFace⟩]

/-- Witness for **C4**: placing the pole next to the engine (distance 3,
min reach 3) adds exactly one wire between them to an empty wire list. -/
theorem claim_power_wire_formation_witness :
    (⟨⟨1, 0⟩, ⟨0, 0⟩⟩ : PowerWire) ∈ addWiresOnPlace polePlaced ⟨1, 0⟩ engineArena []
    ∧ (addWiresOnPlace polePlaced ⟨1, 0⟩ engineArena []).count ⟨⟨1, 0⟩, ⟨0, 0⟩⟩ = 1 := by
  have h := claim_power_wire_formation polePlaced ⟨1, 0⟩ engineArena []
    0 ⟨0, some engineFace⟩ engineFace rfl rfl
    (by constructor
        · left; rfl
        · norm_num [Position.distance, polePlaced, engineFace])
  exact ⟨h.1, h.2.1 (List.not_mem_nil _)⟩

/-! ## Claim theorems: save/load remapping -/


/-- The number of live slots strictly before index `i` — the compacted
save-index a live slot at `i` receives. -/
def liveCountBefore {α} (structures : List (StructureEntry α)) (i : Nat) : Nat :=
  ((structures.take i).filter (fun s => s.bundle.isSome)).length

/-- Recursive restatement of the `id_to_index` pipeline: walk the slots
with the running global index `i` and the running compacted index `k`. -/
def idToIndexAux {α} (i k : Nat) : List (StructureEntry α) → List (StructureId × Nat)
  | [] => []
  | e :: rest =>
    if e.bundle.isSome then (⟨i, e.gen⟩, k) :: idToIndexAux (i + 1) (k + 1) rest
    else idToIndexAux (i + 1) k rest

theorem idToIndexAux_eq {α} (l : List (StructureEntry α)) :
    ∀ (n k : Nat),
    ((((List.enumFrom n l).map (fun p => (StructureId.mk p.1 p.2.gen, p.2))).filter
        (fun p => p.2.bundle.isSome)).enumFrom k).map (fun p => (p.2.1, p.1))
      = idToIndexAux n k l := by
  induction l with
  | nil => intro n k; rfl
  | cons e rest ih =>
    intro n k
    have h1 : List.enumFrom n (e :: rest) = (n, e) :: List.enumFrom (n + 1) rest := rfl
    rw [h1, List.map_cons, List.filter_cons]
    unfold idToIndexAux
    by_cases hb : e.bundle.isSome
    · rw [if_pos (by simpa using hb), if_pos hb]
      have h2 : ∀ (x : StructureId × StructureEntry α) xs,
          List.enumFrom k (x :: xs) = (k, x) :: List.enumFrom (k + 1) xs := fun _ _ => rfl
      rw [h2, List.map_cons]
      dsimp only
      rw [ih (n + 1) (k + 1)]
    · rw [if_neg (by simpa using hb), if_neg hb]
      exact ih (n + 1) k

theorem idToIndex_eq_aux {α} (structures : List (StructureEntry α)) :
    idToIndex structures = idToIndexAux 0 0 structures :=
  idToIndexAux_eq structures 0 0

theorem idToIndexAux_keys_ge {α} (l : List (StructureEntry α)) :
    ∀ (i0 k0 : Nat) (p : StructureId × Nat), p ∈ idToIndexAux i0 k0 l → i0 ≤ p.1.id := by
  induction l with
  | nil => intro i0 k0 p hp; cases hp
  | cons e rest ih =>
    intro i0 k0 p hp
    unfold idToIndexAux at hp
    split_ifs at hp with hb
    · rcases List.mem_cons.mp hp with hEq | hmem
      · subst hEq; exact le_refl _
      · exact Nat.le_of_succ_le (ih (i0 + 1) (k0 + 1) p hmem)
    · exact Nat.le_of_succ_le (ih (i0 + 1) k0 p hp)

theorem idToIndexAux_find_lt {α} (l : List (StructureEntry α)) (i0 k0 : Nat)
    (id : StructureId) (hlt : id.id < i0) :
    (idToIndexAux i0 k0 l).find? (fun p => p.1 == id) = none := by
  apply List.find?_eq_none.mpr
  intro p hp
  have h := idToIndexAux_keys_ge l i0 k0 p hp
  simp only [beq_iff_eq]
  intro hc
  rw [hc] at h
  omega

theorem idToIndexAux_find_live {α} (l : List (StructureEntry α)) :
    ∀ (i0 k0 j : Nat) (e : StructureEntry α), l[j]? = some e → e.bundle.isSome →
    ((idToIndexAux i0 k0 l).find? (fun p => p.1 == StructureId.mk (i0 + j) e.gen)).map
        (fun p => p.2)
      = some (k0 + liveCountBefore l j) := by
  induction l with
  | nil => intro i0 k0 j e hget _; rw [List.getElem?_nil] at hget; cases hget
  | cons e0 rest ih =>
    intro i0 k0 j e hget hlive
    cases j with
    | zero =>
      rw [List.getElem?_cons_zero] at hget
      cases hget
      unfold idToIndexAux
      rw [if_pos hlive]
      rw [List.find?_cons_of_pos _ (by simp)]
      simp [liveCountBefore]
    | succ j =>
      rw [List.getElem?_cons_succ] at hget
      unfold idToIndexAux
      by_cases hb : e0.bundle.isSome
      · rw [if_pos hb]
        rw [List.find?_cons_of_neg _ (by simp)]
        have h := ih (i0 + 1) (k0 + 1) j e hget hlive
        rw [show i0 + 1 + j = i0 + (j + 1) by omega] at h
        rw [h]
        congr 1
        simp only [liveCountBefore, List.take_succ_cons, List.filter_cons, hb]
        simp [List.length_cons]
        omega
      · rw [if_neg hb]
        have h := ih (i0 + 1) k0 j e hget hlive
        rw [show i0 + 1 + j = i0 + (j + 1) by omega] at h
        rw [h]
        congr 1
        simp only [liveCountBefore, List.take_succ_cons, List.filter_cons]
        rw [if_neg hb]

theorem idToIndexAux_find_stale {α} (l : List (StructureEntry α)) :
    ∀ (i0 k0 j g : Nat),
    (∀ e : StructureEntry α, l[j]? = some e → e.bundle = none ∨ e.gen ≠ g) →
    (idToIndexAux i0 k0 l).find? (fun p => p.1 == StructureId.mk (i0 + j) g) = none := by
  induction l with
  | nil => intro i0 k0 j g _; rfl
  | cons e0 rest ih =>
    intro i0 k0 j g hstale
    cases j with
    | zero =>
      have h0 := hstale e0 (by rw [List.getElem?_cons_zero])
      unfold idToIndexAux
      by_cases hb : e0.bundle.isSome
      · rw [if_pos hb]
        have hgen : e0.gen ≠ g := by
          rcases h0 with h | h
          · rw [h] at hb; cases hb
          · exact h
        rw [List.find?_cons_of_neg _ (by simp; omega)]
        exact idToIndexAux_find_lt rest (i0 + 1) (k0 + 1) _ (by simp)
      · rw [if_neg hb]
        exact idToIndexAux_find_lt rest (i0 + 1) k0 _ (by simp)
    | succ j =>
      unfold idToIndexAux
      have htail : ∀ e : StructureEntry α, rest[j]? = some e → e.bundle = none ∨ e.gen ≠ g := by
        intro e he
        exact hstale e (by rw [List.getElem?_cons_succ]; exact he)
      by_cases hb : e0.bundle.isSome
      · rw [if_pos hb]
        rw [List.find?_cons_of_neg _ (by simp)]
        have h := ih (i0 + 1) k0.succ j g htail
        rw [show i0 + 1 + j = i0 + (j + 1) by omega] at h
        exact h
      · rw [if_neg hb]
        have h := ih (i0 + 1) k0 j g htail
        rw [show i0 + 1 + j = i0 + (j + 1) by omega] at h
        exact h

theorem filterMap_bundle_getElem {α} (l : List (StructureEntry α)) :
    ∀ (j : Nat) (e : StructureEntry α) (b : α), l[j]? = some e → e.bundle = some b →
    (l.filterMap (fun s => s.bundle))[liveCountBefore l j]? = some b := by
  induction l with
  | nil => intro j e b hget _; rw [List.getElem?_nil] at hget; cases hget
  | cons e0 rest ih =>
    intro j e b hget hb
    cases j with
    | zero =>
      rw [List.getElem?_cons_zero] at hget
      cases hget
      rw [List.filterMap_cons, hb]
      simp [liveCountBefore]
    | succ j =>
      rw [List.getElem?_cons_succ] at hget
      rw [List.filterMap_cons]
      cases hb0 : e0.bundle with
      | none =>
        have h := ih j e b hget hb
        simpa [liveCountBefore, List.take_succ_cons, List.filter_cons, hb0] using h
      | some b0 =>
        have h := ih j e b hget hb
        have hl : liveCountBefore (e0 :: rest) (j + 1) = liveCountBefore rest j + 1 := by
          simp [liveCountBefore, List.take_succ_cons, List.filter_cons, hb0]
        rw [hl]
        simpa using h

/-- **C8**: on save only live slots are serialized, in arena order; the
`(index, generation)` → compacted-save-index map sends each live slot to
the count of live slots before it and sends dead or stale ids to
nothing; wires serialize through that map, silently dropping any wire
with an unmapped endpoint; on load structures are re-inserted in save
order with generation 0 (the slot at a live id's compacted index holds
exactly the original bundle) and wires are rehydrated with generation 0
on both endpoints. -/
theorem claim_save_load_remapping {α} (structures : List (StructureEntry α)) :
    (∀ (i : Nat) (e : StructureEntry α) (b : α),
        structures[i]? = some e → e.bundle = some b →
        idToIndexGet structures ⟨i, e.gen⟩ = some (liveCountBefore structures i)
        ∧ (deserializeStructures (serializeStructures structures))[liveCountBefore structures i]?
            = some ⟨0, some b⟩)
    ∧ (∀ (i g : Nat),
        (∀ e : StructureEntry α, structures[i]? = some e → e.bundle = none ∨ e.gen ≠ g) →
        idToIndexGet structures ⟨i, g⟩ = none)
    ∧ (∀ (w : PowerWire) (rest : List PowerWire),
        (idToIndexGet structures w.fst = none ∨ idToIndexGet structures w.snd = none →
          serializeWires structures (w :: rest) = serializeWires structures rest)
        ∧ (∀ a b : Nat, idToIndexGet structures w.fst = some a →
            idToIndexGet structures w.snd = some b →
            serializeWires structures (w :: rest) = (a, b) :: serializeWires structures rest))
    ∧ ((deserializeStructures (serializeStructures structures)).map (fun e => e.bundle)
        = (serializeStructures structures).map some)
    ∧ (∀ e ∈ deserializeStructures (serializeStructures structures), e.gen = 0)
    ∧ (∀ saved : List (Nat × Nat),
        (deserializeWires saved).map (fun w => (w.fst.id, w.snd.id)) = saved
        ∧ ∀ w ∈ deserializeWires saved, w.fst.gen = 0 ∧ w.snd.gen = 0) := by
  refine ⟨?_, ?_, ?_, ?_, ?_, ?_⟩
  · intro i e b hget hb
    constructor
    · unfold idToIndexGet
      rw [idToIndex_eq_aux]
      have h := idToIndexAux_find_live structures 0 0 i e (by simpa using hget)
        (by rw [hb]; rfl)
      simpa using h
    · unfold deserializeStructures serializeStructures
      rw [List.getElem?_map, filterMap_bundle_getElem structures i e b hget hb]
      rfl
  · intro i g hstale
    unfold idToIndexGet
    rw [idToIndex_eq_aux]
    have h := idToIndexAux_find_stale structures 0 0 i g hstale
    simp only [Nat.zero_add] at h
    rw [h]
    rfl
  · intro w rest
    constructor
    · intro hnone
      unfold serializeWires
      rw [List.filterMap_cons]
      rcases hnone with h | h
      · rw [h]; rfl
      · cases hf : idToIndexGet structures w.fst
        · rfl
        · rw [h]; rfl
    · intro a b ha hb
      unfold serializeWires
      rw [List.filterMap_cons, ha, hb]
      rfl
  · unfold deserializeStructures
    rw [List.map_map]
    rfl
  · intro e he
    unfold deserializeStructures at he
    rcases List.mem_map.mp he with ⟨b, _, rfl⟩
    rfl
  · intro saved
    constructor
    · unfold deserializeWires
      rw [List.map_map]
      have h : ∀ p : Nat × Nat,
          ((fun w => (w.fst.id, w.snd.id)) ∘ fun w => PowerWire.mk ⟨w.1, 0⟩ ⟨w.2, 0⟩) p = p := by
        intro p; rfl
      calc saved.map _ = saved.map (fun p => p) := List.map_congr_left (fun a _ => h a)
        _ = saved := List.map_id _
    · intro w hw
      unfold deserializeWires at hw
      rcases List.mem_map.mp hw with ⟨p, _, rfl⟩
      exact ⟨rfl, rfl⟩

/-- A three-slot arena with a destroyed middle slot, for the save/load
witness. -/
def saveArena : List (StructureEntry Nat) := [⟨5, some 11⟩, ⟨2, none⟩, ⟨7, some 22⟩]

/-- Witness for **C8**: the live slots of the three-slot arena map to
compacted indices 0 and 1, the stale id maps to nothing, the wire list
drops the stale wire and remaps the live one, and the reloaded arena
holds the original bundle at the compacted index with generation 0. -/
theorem claim_save_load_remapping_witness :
    idToIndexGet saveArena ⟨0, 5⟩ = some 0
    ∧ idToIndexGet saveArena ⟨2, 7⟩ = some 1
    ∧ idToIndexGet saveArena ⟨1, 2⟩ = none
    ∧ serializeWires saveArena [⟨⟨1, 2⟩, ⟨0, 5⟩⟩, ⟨⟨0, 5⟩, ⟨2, 7⟩⟩] = [(0, 1)]
    ∧ (deserializeStructures (serializeStructures saveArena))[1]? = some ⟨0, some 22⟩ := by
  have h := claim_save_load_remapping saveArena
  have h0 := h.1 0 ⟨5, some 11⟩ 11 rfl rfl
  have h2 := h.1 2 ⟨7, some 22⟩ 22 rfl rfl
  have hstale := h.2.1 1 2 (by
    intro e he
    rw [show saveArena[1]? = some ⟨2, none⟩ from rfl] at he
    cases he
    exact Or.inl rfl)
  refine ⟨h0.1, h2.1, hstale, ?_, h2.2⟩
  have hw2 := (h.2.2.1 ⟨⟨1, 2⟩, ⟨0, 5⟩⟩ [⟨⟨0, 5⟩, ⟨2, 7⟩⟩]).1 (Or.inl hstale)
  have hw1 := (h.2.2.1 ⟨⟨0, 5⟩, ⟨2, 7⟩⟩ []).2 0 1 h0.1 h2.1
  rw [hw2, hw1]
  rfl

/-! ## Claim theorems: deserialization atomicity -/

/-- A pre-existing game state with one live structure and one drop item. -/
def baseState : GameState Nat :=
  { sim_time := 0, player := 0, viewport := 0, width := 0, height := 0,
    bounds := none, board := [], structures := [⟨0, some 42⟩],
    power_wires := [], drop_items := [7], tool_belt := 0 }

/-- A document that passes the version check but is missing every other
field (`sim_time` is the first parse to fail). -/
def badDoc : SaveDoc Nat :=
  { version := some 5, sim_time := none, player := none, viewport := none,
    width := none, height := none, bounds := none, board := none,
    structures := none, power_wires := none, items := none, tool_belt := none }

/-- Counterexample to **C5** as stated: on a document with a valid
version but a missing `sim_time`, the load fails — yet the pre-existing
game state is *not* left unchanged, because `deserialize_game` clears
the structure and drop-item lists before the first fallible field
parse. -/
theorem claim_load_atomicity_counterexample :
    (∃ e, (deserialize_game baseState badDoc).2 = Except.error e)
    ∧ (deserialize_game baseState badDoc).1 ≠ baseState := by
  constructor
  · exact ⟨_, rfl⟩
  · intro h
    have h2 : (deserialize_game baseState badDoc).1.structures = baseState.structures := by
      rw [h]
    rw [show (deserialize_game baseState badDoc).1.structures = [] from rfl] at h2
    simp [baseState] at h2

theorem parseBoard_append_ok {α} (good : List Nat) : ∀ st : GameState α,
    parseBoard st (good.map some) = ({ st with board := st.board ++ good }, .ok ()) := by
  induction good with
  | nil => intro st; simp [parseBoard]
  | cons c g ih =>
    intro st
    show parseBoard { st with board := st.board ++ [c] } (g.map some) = _
    rw [ih]
    simp

theorem parseBoard_chunk_fail {α} (good : List Nat) (rest : List (Option Nat)) :
    ∀ st : GameState α,
    parseBoard st (good.map some ++ none :: rest)
      = ({ st with board := st.board ++ good }, .error "Chunk does not have data") := by
  induction good with
  | nil => intro st; simp [parseBoard]
  | cons c g ih =>
    intro st
    show parseBoard { st with board := st.board ++ [c] } (g.map some ++ none :: rest) = _
    rw [ih]
    simp

theorem option_list_split (l : List (Option Nat)) :
    (∃ good : List Nat, l = good.map some)
    ∨ (∃ (good : List Nat) (rest : List (Option Nat)), l = good.map some ++ none :: rest) := by
  induction l with
  | nil => exact Or.inl ⟨[], rfl⟩
  | cons c rest ih =>
    cases c with
    | none => exact Or.inr ⟨[], rest, rfl⟩
    | some v =>
      rcases ih with ⟨good, rfl⟩ | ⟨good, r2, rfl⟩
      · exact Or.inl ⟨v :: good, rfl⟩
      · exact Or.inr ⟨v :: good, r2, rfl⟩

theorem dg_version_fail {α} (st : GameState α) (doc : SaveDoc α)
    (hv : doc.version.getD 0 < SAVE_VERSION) :
    deserialize_game st doc
      = (st, .error "Save data version is too old. Please start a new game.") := by
  unfold deserialize_game
  rw [if_pos hv]

theorem dg_sim_time_fail {α} (st : GameState α) (doc : SaveDoc α)
    (hv : ¬ doc.version.getD 0 < SAVE_VERSION) (h1 : doc.sim_time = none) :
    deserialize_game st doc
      = ({ st with structures := [], drop_items := [] }, .error "sim_time is not float") := by
  unfold deserialize_game
  rw [if_neg hv, h1]

theorem dg_player_fail {α} (st : GameState α) (doc : SaveDoc α)
    (hv : ¬ doc.version.getD 0 < SAVE_VERSION) (t : ℚ)
    (h1 : doc.sim_time = some t) (h2 : doc.player = none) :
    deserialize_game st doc
      = ({ st with structures := [], drop_items := [], sim_time := t },
         .error "player deserialization error") := by
  unfold deserialize_game
  rw [if_neg hv, h1, h2]

theorem dg_width_fail {α} (st : GameState α) (doc : SaveDoc α)
    (hv : ¬ doc.version.getD 0 < SAVE_VERSION) (t : ℚ) (p : Nat)
    (h1 : doc.sim_time = some t) (h2 : doc.player = some p) (h3 : doc.width = none) :
    deserialize_game st doc
      = ({ st with
            structures := []
            drop_items := []
            sim_time := t
            player := p
            viewport := doc.viewport.getD 0 }, .error "width not found") := by
  unfold deserialize_game
  rw [if_neg hv, h1, h2, h3]

theorem dg_height_fail {α} (st : GameState α) (doc : SaveDoc α)
    (hv : ¬ doc.version.getD 0 < SAVE_VERSION) (t : ℚ) (p w : Nat)
    (h1 : doc.sim_time = some t) (h2 : doc.player = some p) (h3 : doc.width = some w)
    (h4 : doc.height = none) :
    deserialize_game st doc
      = ({ st with
            structures := []
            drop_items := []
            sim_time := t
            player := p
            viewport := doc.viewport.getD 0
            width := w }, .error "height not found") := by
  unfold deserialize_game
  rw [if_neg hv, h1, h2, h3, h4]

theorem dg_board_missing_fail {α} (st : GameState α) (doc : SaveDoc α)
    (hv : ¬ doc.version.getD 0 < SAVE_VERSION) (t : ℚ) (p w hgt : Nat)
    (h1 : doc.sim_time = some t) (h2 : doc.player = some p) (h3 : doc.width = some w)
    (h4 : doc.height = some hgt) (h5 : doc.board = none) :
    deserialize_game st doc
      = ({ st with
            structures := []
            drop_items := []
            sim_time := t
            player := p
            viewport := doc.viewport.getD 0
            width := w
            height := hgt
            bounds := doc.bounds.getD none }, .error "board not found in saved data") := by
  unfold deserialize_game
  rw [if_neg hv, h1, h2, h3, h4, h5]

theorem dg_board_chunk_fail {α} (st : GameState α) (doc : SaveDoc α)
    (hv : ¬ doc.version.getD 0 < SAVE_VERSION) (t : ℚ) (p w hgt : Nat)
    (good : List Nat) (rest : List (Option Nat))
    (h1 : doc.sim_time = some t) (h2 : doc.player = some p) (h3 : doc.width = some w)
    (h4 : doc.height = some hgt) (h5 : doc.board = some (good.map some ++ none :: rest)) :
    deserialize_game st doc
      = ({ st with
            structures := []
            drop_items := []
            sim_time := t
            player := p
            viewport := doc.viewport.getD 0
            width := w
            height := hgt
            bounds := doc.bounds.getD none
            board := good },
         .error "Chunk does not have data") := by
  unfold deserialize_game
  simp only [if_neg hv, h1, h2, h3, h4, h5, parseBoard_chunk_fail]
  rfl

theorem dg_structures_fail {α} (st : GameState α) (doc : SaveDoc α)
    (hv : ¬ doc.version.getD 0 < SAVE_VERSION) (t : ℚ) (p w hgt : Nat)
    (good : List Nat)
    (h1 : doc.sim_time = some t) (h2 : doc.player = some p) (h3 : doc.width = some w)
    (h4 : doc.height = some hgt) (h5 : doc.board = some (good.map some))
    (h6 : doc.structures = none) :
    deserialize_game st doc
      = ({ st with
            structures := []
            drop_items := []
            sim_time := t
            player := p
            viewport := doc.viewport.getD 0
            width := w
            height := hgt
            bounds := doc.bounds.getD none
            board := good },
         .error "structures not found in saved data") := by
  unfold deserialize_game
  simp only [if_neg hv, h1, h2, h3, h4, h5, h6, parseBoard_append_ok]
  rfl

theorem dg_power_wires_fail {α} (st : GameState α) (doc : SaveDoc α)
    (hv : ¬ doc.version.getD 0 < SAVE_VERSION) (t : ℚ) (p w hgt : Nat)
    (good : List Nat) (saved : List α)
    (h1 : doc.sim_time = some t) (h2 : doc.player = some p) (h3 : doc.width = some w)
    (h4 : doc.height = some hgt) (h5 : doc.board = some (good.map some))
    (h6 : doc.structures = some saved) (h7 : doc.power_wires = none) :
    deserialize_game st doc
      = ({ st with
            structures := []
            drop_items := []
            sim_time := t
            player := p
            viewport := doc.viewport.getD 0
            width := w
            height := hgt
            bounds := doc.bounds.getD none
            board := good },
         .error "power_wires not found in saved data") := by
  unfold deserialize_game
  simp only [if_neg hv, h1, h2, h3, h4, h5, h6, h7, parseBoard_append_ok]
  rfl

theorem dg_items_fail {α} (st : GameState α) (doc : SaveDoc α)
    (hv : ¬ doc.version.getD 0 < SAVE_VERSION) (t : ℚ) (p w hgt : Nat)
    (good : List Nat) (saved : List α) (ws : List (Nat × Nat))
    (h1 : doc.sim_time = some t) (h2 : doc.player = some p) (h3 : doc.width = some w)
    (h4 : doc.height = some hgt) (h5 : doc.board = some (good.map some))
    (h6 : doc.structures = some saved) (h7 : doc.power_wires = some ws)
    (h8 : doc.items = none) :
    deserialize_game st doc
      = ({ st with
            structures := deserializeStructures saved
            drop_items := []
            sim_time := t
            player := p
            viewport := doc.viewport.getD 0
            width := w
            height := hgt
            bounds := doc.bounds.getD none
            board := good
            power_wires := deserializeWires ws },
         .error "items not found") := by
  unfold deserialize_game
  simp only [if_neg hv, h1, h2, h3, h4, h5, h6, h7, h8, parseBoard_append_ok]
  rfl

theorem dg_tool_belt_fail {α} (st : GameState α) (doc : SaveDoc α)
    (hv : ¬ doc.version.getD 0 < SAVE_VERSION) (t : ℚ) (p w hgt : Nat)
    (good : List Nat) (saved : List α) (ws : List (Nat × Nat)) (its : List Nat)
    (h1 : doc.sim_time = some t) (h2 : doc.player = some p) (h3 : doc.width = some w)
    (h4 : doc.height = some hgt) (h5 : doc.board = some (good.map some))
    (h6 : doc.structures = some saved) (h7 : doc.power_wires = some ws)
    (h8 : doc.items = some its) (h9 : doc.tool_belt = none) :
    deserialize_game st doc
      = ({ st with
            structures := deserializeStructures saved
            drop_items := its
            sim_time := t
            player := p
            viewport := doc.viewport.getD 0
            width := w
            height := hgt
            bounds := doc.bounds.getD none
            board := good
            power_wires := deserializeWires ws },
         .error "tool_belt deserialization error") := by
  unfold deserialize_game
  simp only [if_neg hv, h1, h2, h3, h4, h5, h6, h7, h8, h9, parseBoard_append_ok]
  rfl

theorem dg_ok {α} (st : GameState α) (doc : SaveDoc α)
    (hv : ¬ doc.version.getD 0 < SAVE_VERSION) (t : ℚ) (p w hgt : Nat)
    (good : List Nat) (saved : List α) (ws : List (Nat × Nat)) (its : List Nat) (tb : Nat)
    (h1 : doc.sim_time = some t) (h2 : doc.player = some p) (h3 : doc.width = some w)
    (h4 : doc.height = some hgt) (h5 : doc.board = some (good.map some))
    (h6 : doc.structures = some saved) (h7 : doc.power_wires = some ws)
    (h8 : doc.items = some its) (h9 : doc.tool_belt = some tb) :
    deserialize_game st doc
      = ({ st with
            structures := deserializeStructures saved
            drop_items := its
            sim_time := t
            player := p
            viewport := doc.viewport.getD 0
            width := w
            height := hgt
            bounds := doc.bounds.getD none
            board := good
            power_wires := deserializeWires ws
            tool_belt := tb },
         .ok ()) := by
  unfold deserialize_game
  simp only [if_neg hv, h1, h2, h3, h4, h5, h6, h7, h8, h9, parseBoard_append_ok]
  rfl

theorem dg_error_state {α} (st : GameState α) (doc : SaveDoc α)
    (hv : ¬ doc.version.getD 0 < SAVE_VERSION) :
    ∀ e, (deserialize_game st doc).2 = Except.error e →
      ((deserialize_game st doc).1.structures = []
        ∨ (deserialize_game st doc).1.structures
            = deserializeStructures (doc.structures.getD []))
      ∧ ((deserialize_game st doc).1.drop_items = []
        ∨ (deserialize_game st doc).1.drop_items = doc.items.getD []) := by
  intro e herr
  cases h1 : doc.sim_time with
  | none => rw [dg_sim_time_fail st doc hv h1]; exact ⟨Or.inl rfl, Or.inl rfl⟩
  | some t =>
  cases h2 : doc.player with
  | none => rw [dg_player_fail st doc hv t h1 h2]; exact ⟨Or.inl rfl, Or.inl rfl⟩
  | some p =>
  cases h3 : doc.width with
  | none => rw [dg_width_fail st doc hv t p h1 h2 h3]; exact ⟨Or.inl rfl, Or.inl rfl⟩
  | some w =>
  cases h4 : doc.height with
  | none => rw [dg_height_fail st doc hv t p w h1 h2 h3 h4]; exact ⟨Or.inl rfl, Or.inl rfl⟩
  | some hgt =>
  cases h5 : doc.board with
  | none =>
    rw [dg_board_missing_fail st doc hv t p w hgt h1 h2 h3 h4 h5]
    exact ⟨Or.inl rfl, Or.inl rfl⟩
  | some chunks =>
  rcases option_list_split chunks with ⟨good, rfl⟩ | ⟨good, rest, rfl⟩
  · cases h6 : doc.structures with
    | none =>
      rw [dg_structures_fail st doc hv t p w hgt good h1 h2 h3 h4 h5 h6]
      exact ⟨Or.inl rfl, Or.inl rfl⟩
    | some saved =>
    cases h7 : doc.power_wires with
    | none =>
      rw [dg_power_wires_fail st doc hv t p w hgt good saved h1 h2 h3 h4 h5 h6 h7]
      exact ⟨Or.inl rfl, Or.inl rfl⟩
    | some ws =>
    cases h8 : doc.items with
    | none =>
      rw [dg_items_fail st doc hv t p w hgt good saved ws h1 h2 h3 h4 h5 h6 h7 h8]
      exact ⟨Or.inr rfl, Or.inl rfl⟩
    | some its =>
    cases h9 : doc.tool_belt with
    | none =>
      rw [dg_tool_belt_fail st doc hv t p w hgt good saved ws its h1 h2 h3 h4 h5 h6 h7 h8 h9]
      exact ⟨Or.inr rfl, Or.inr rfl⟩
    | some tb =>
      rw [dg_ok st doc hv t p w hgt good saved ws its tb h1 h2 h3 h4 h5 h6 h7 h8 h9] at herr
      cases herr
  · rw [dg_board_chunk_fail st doc hv t p w hgt good rest h1 h2 h3 h4 h5]
    exact ⟨Or.inl rfl, Or.inl rfl⟩

/-- **C5 (amended)**: only the version check aborts the load with the
pre-existing state untouched.  Every deserialization failure after it
returns an error with the load already partially applied: the structure
and drop-item lists are cleared right after the version check, every
field parsed before the failing one is already overwritten, and in the
enumerated failure cases the exact final state is as follows — in
particular a failing board chunk leaves a cleared, partially rebuilt
board, and failures at `items`/`tool_belt` leave the loaded structures
and wires in place. -/
theorem claim_load_atomicity_amended {α} (st : GameState α) (doc : SaveDoc α) :
    (doc.version.getD 0 < SAVE_VERSION →
      deserialize_game st doc
        = (st, .error "Save data version is too old. Please start a new game."))
    ∧ (¬ doc.version.getD 0 < SAVE_VERSION →
        (∀ e, (deserialize_game st doc).2 = Except.error e →
          ((deserialize_game st doc).1.structures = []
            ∨ (deserialize_game st doc).1.structures
                = deserializeStructures (doc.structures.getD []))
          ∧ ((deserialize_game st doc).1.drop_items = []
            ∨ (deserialize_game st doc).1.drop_items = doc.items.getD []))
        ∧ (doc.sim_time = none →
            deserialize_game st doc
              = ({ st with structures := [], drop_items := [] },
                 .error "sim_time is not float"))
        ∧ (∀ t, doc.sim_time = some t → doc.player = none →
            deserialize_game st doc
              = ({ st with structures := [], drop_items := [], sim_time := t },
                 .error "player deserialization error"))
        ∧ (∀ t p, doc.sim_time = some t → doc.player = some p → doc.width = none →
            deserialize_game st doc
              = ({ st with
                    structures := []
                    drop_items := []
                    sim_time := t
                    player := p
                    viewport := doc.viewport.getD 0 }, .error "width not found"))
        ∧ (∀ t p w, doc.sim_time = some t → doc.player = some p → doc.width = some w →
            doc.height = none →
            deserialize_game st doc
              = ({ st with
                    structures := []
                    drop_items := []
                    sim_time := t
                    player := p
                    viewport := doc.viewport.getD 0
                    width := w }, .error "height not found"))
        ∧ (∀ t p w hgt, doc.sim_time = some t → doc.player = some p → doc.width = some w →
            doc.height = some hgt → doc.board = none →
            deserialize_game st doc
              = ({ st with
                    structures := []
                    drop_items := []
                    sim_time := t
                    player := p
                    viewport := doc.viewport.getD 0
                    width := w
                    height := hgt
                    bounds := doc.bounds.getD none },
                 .error "board not found in saved data"))
        ∧ (∀ t p w hgt good rest, doc.sim_time = some t → doc.player = some p →
            doc.width = some w → doc.height = some hgt →
            doc.board = some (List.map some good ++ none :: rest) →
            deserialize_game st doc
              = ({ st with
                    structures := []
                    drop_items := []
                    sim_time := t
                    player := p
                    viewport := doc.viewport.getD 0
                    width := w
                    height := hgt
                    bounds := doc.bounds.getD none
                    board := good }, .error "Chunk does not have data"))
        ∧ (∀ t p w hgt good, doc.sim_time = some t → doc.player = some p →
            doc.width = some w → doc.height = some hgt →
            doc.board = some (List.map some good) → doc.structures = none →
            deserialize_game st doc
              = ({ st with
                    structures := []
                    drop_items := []
                    sim_time := t
                    player := p
                    viewport := doc.viewport.getD 0
                    width := w
                    height := hgt
                    bounds := doc.bounds.getD none
                    board := good }, .error "structures not found in saved data"))
        ∧ (∀ t p w hgt good saved, doc.sim_time = some t → doc.player = some p →
            doc.width = some w → doc.height = some hgt →
            doc.board = some (List.map some good) → doc.structures = some saved →
            doc.power_wires = none →
            deserialize_game st doc
              = ({ st with
                    structures := []
                    drop_items := []
                    sim_time := t
                    player := p
                    viewport := doc.viewport.getD 0
                    width := w
                    height := hgt
                    bounds := doc.bounds.getD none
                    board := good }, .error "power_wires not found in saved data"))
        ∧ (∀ t p w hgt good saved ws, doc.sim_time = some t → doc.player = some p →
            doc.width = some w → doc.height = some hgt →
            doc.board = some (List.map some good) → doc.structures = some saved →
            doc.power_wires = some ws → doc.items = none →
            deserialize_game st doc
              = ({ st with
                    structures := deserializeStructures saved
                    drop_items := []
                    sim_time := t
                    player := p
                    viewport := doc.viewport.getD 0
                    width := w
                    height := hgt
                    bounds := doc.bounds.getD none
                    board := good
                    power_wires := deserializeWires ws }, .error "items not found"))
        ∧ (∀ t p w hgt good saved ws its, doc.sim_time = some t → doc.player = some p →
            doc.width = some w → doc.height = some hgt →
            doc.board = some (List.map some good) → doc.structures = some saved →
            doc.power_wires = some ws → doc.items = some its → doc.tool_belt = none →
            deserialize_game st doc
              = ({ st with
                    structures := deserializeStructures saved
                    drop_items := its
                    sim_time := t
                    player := p
                    viewport := doc.viewport.getD 0
                    width := w
                    height := hgt
                    bounds := doc.bounds.getD none
                    board := good
                    power_wires := deserializeWires ws },
                 .error "tool_belt deserialization error"))) := by
  refine ⟨fun hv => dg_version_fail st doc hv, fun hv => ?_⟩
  exact ⟨dg_error_state st doc hv,
    fun h1 => dg_sim_time_fail st doc hv h1,
    fun t h1 h2 => dg_player_fail st doc hv t h1 h2,
    fun t p h1 h2 h3 => dg_width_fail st doc hv t p h1 h2 h3,
    fun t p w h1 h2 h3 h4 => dg_height_fail st doc hv t p w h1 h2 h3 h4,
    fun t p w hgt h1 h2 h3 h4 h5 => dg_board_missing_fail st doc hv t p w hgt h1 h2 h3 h4 h5,
    fun t p w hgt good rest h1 h2 h3 h4 h5 =>
      dg_board_chunk_fail st doc hv t p w hgt good rest h1 h2 h3 h4 h5,
    fun t p w hgt good h1 h2 h3 h4 h5 h6 =>
      dg_structures_fail st doc hv t p w hgt good h1 h2 h3 h4 h5 h6,
    fun t p w hgt good saved h1 h2 h3 h4 h5 h6 h7 =>
      dg_power_wires_fail st doc hv t p w hgt good saved h1 h2 h3 h4 h5 h6 h7,
    fun t p w hgt good saved ws h1 h2 h3 h4 h5 h6 h7 h8 =>
      dg_items_fail st doc hv t p w hgt good saved ws h1 h2 h3 h4 h5 h6 h7 h8,
    fun t p w hgt good saved ws its h1 h2 h3 h4 h5 h6 h7 h8 h9 =>
      dg_tool_belt_fail st doc hv t p w hgt good saved ws its h1 h2 h3 h4 h5 h6 h7 h8 h9⟩

/-- A document that fails at its second board chunk: version and the
scalar fields parse, the first chunk parses, the second does not. -/
def chunkDoc : SaveDoc Nat :=
  { version := some 5, sim_time := some 1, player := some 2, viewport := none,
    width := some 3, height := some 4, bounds := none,
    board := some [some 7, none], structures := none, power_wires := none,
    items := none, tool_belt := none }

/-- A document that fails only at `items`: everything through the power
wires parses, so the loaded structures and wires are already in place
when the failure occurs. -/
def itemsDoc : SaveDoc Nat :=
  { version := some 5, sim_time := some 1, player := some 2, viewport := none,
    width := some 3, height := some 4, bounds := none,
    board := some [some 7], structures := some [5], power_wires := some [(0, 0)],
    items := none, tool_belt := none }

/-- Witness for **C5 (amended)**: a version-3 document is rejected with
the state untouched; `badDoc` (`sim_time` missing) leaves cleared
structures and drop items; `chunkDoc` fails at its second board chunk
with the board cleared and partially rebuilt to `[7]`; `itemsDoc` fails
at `items` with the loaded structures already installed; and the
universal conjunct applies at `badDoc`. -/
theorem claim_load_atomicity_amended_witness :
    deserialize_game baseState { badDoc with version := some 3 }
      = (baseState, .error "Save data version is too old. Please start a new game.")
    ∧ (deserialize_game baseState badDoc).1
        = { baseState with structures := [], drop_items := [] }
    ∧ (deserialize_game baseState chunkDoc).1.board = [7]
    ∧ (deserialize_game baseState itemsDoc).1.structures = deserializeStructures [5]
    ∧ ((deserialize_game baseState badDoc).1.structures = []
        ∨ (deserialize_game baseState badDoc).1.structures
            = deserializeStructures (badDoc.structures.getD [])) := by
  have hv : ¬ (badDoc : SaveDoc Nat).version.getD 0 < SAVE_VERSION := by
    norm_num [badDoc, SAVE_VERSION]
  have hvc : ¬ chunkDoc.version.getD 0 < SAVE_VERSION := by
    norm_num [chunkDoc, SAVE_VERSION]
  have hvi : ¬ itemsDoc.version.getD 0 < SAVE_VERSION := by
    norm_num [itemsDoc, SAVE_VERSION]
  refine ⟨(claim_load_atomicity_amended baseState _).1
      (by norm_num [badDoc, SAVE_VERSION]), ?_, ?_, ?_, ?_⟩
  · rw [((claim_load_atomicity_amended baseState badDoc).2 hv).2.1 rfl]
  · rw [((claim_load_atomicity_amended baseState chunkDoc).2 hvc).2.2.2.2.2.2.1
      1 2 3 4 [7] [] rfl rfl rfl rfl rfl]
  · rw [((claim_load_atomicity_amended baseState itemsDoc).2
      hvi).2.2.2.2.2.2.2.2.2.1 1 2 3 4 [7] [5] [(0, 0)] rfl rfl rfl rfl rfl rfl rfl rfl]
  · exact (((claim_load_atomicity_amended baseState badDoc).2 hv).1
      "sim_time is not float" rfl).1

end Factorish
